import Mathlib

/-!
Verification of the core logic of the rocketGUIv1 ground-control panel.

The development shallowly embeds, directly from the Python sources:

* the serial-line parser and pressure-band display logic of
  `src/main.py` (`RocketDisplayWindow.parseData`, `RocketDisplayWindow.updateDisplay`,
  `RocketDisplayWindow.sendMessage`, `MSG_PAD`, `SAFE_PRESS`, `MID_PRESS`);
* the stage-navigation methods of `src/main.py`
  (`updateStage`, `previousStage`, `abortMission`);
* the task-gated launch state machine of `src/test.py`
  (`FireProcedure.changeStatus`, `StateMachine.update`, and the
  stage/task tables installed by `MainWindow.__init__`);
* the serial worker of `src/utils/gui_serial.py`
  (`SerialWorker.run`, `SerialWorker.sendToggle`), as trace-producing
  functions over explicit schedules of lock/read outcomes.

Python-specific behaviours that the claims depend on are modelled
explicitly: `str.strip(chars)` strips a *character set* from both ends,
`str.split(sep)` splits on non-overlapping occurrences left to right,
`len(set(s))` counts distinct characters, and dict assignment `d[k] = v`
inserts `k` at the end when it is absent.
-/

/-! ## Python string primitives -/

/-- Python `needle in hay` for strings: substring containment. -/
def isSubstr (needle hay : List Char) : Bool :=
  hay.tails.any (fun t => needle.isPrefixOf t)

/-- Python `s.strip(chars)`: remove characters belonging to the set `chars`
from both ends of `s`. -/
def pyStrip (chars s : List Char) : List Char :=
  ((s.dropWhile (fun c => chars.contains c)).reverse.dropWhile
    (fun c => chars.contains c)).reverse

/-- Python `s.split(sep)` for a single-character separator `c`:
every occurrence of `c` ends the current piece (adjacent separators
produce empty pieces, `"".split(c) = [""]`). -/
def splitOnChar (c : Char) : List Char → List (List Char)
  | [] => [[]]
  | x :: xs =>
    if x = c then [] :: splitOnChar c xs
    else
      match splitOnChar c xs with
      | [] => [[x]]
      | h :: t => (x :: h) :: t

/-- Python `s.split(", ")`, specialised to the constant separator
`PRESSURE_SEP = ", "` of `src/main.py`: non-overlapping occurrences of
the two-character separator, scanned left to right. -/
def splitCommaSpace : List Char → List (List Char)
  | ',' :: ' ' :: rest => [] :: splitCommaSpace rest
  | x :: rest =>
    match splitCommaSpace rest with
    | [] => [[x]]
    | h :: t => (x :: h) :: t
  | [] => [[]]

/-- Accumulator loop for `pyInt?`: consume decimal digits, failing on any
non-digit character. -/
def natOfDigitsAux (acc : Nat) : List Char → Option Nat
  | [] => some acc
  | c :: r => if c.isDigit then natOfDigitsAux (acc * 10 + (c.toNat - 48)) r else none

/-- Python `int(s)` on an already-whitespace-stripped string: an optional
leading minus sign followed by at least one decimal digit; `none` models
the `ValueError` raised on any other input. -/
def pyInt? : List Char → Option Int
  | '-' :: rest =>
    if rest = [] then none else (natOfDigitsAux 0 rest).map (fun n => -(n : Int))
  | [] => none
  | s => (natOfDigitsAux 0 s).map (fun n => (n : Int))

/-- Python `s.strip()` (no argument): strip ASCII whitespace from both ends. -/
def stripWs (s : List Char) : List Char :=
  pyStrip [' ', '\t', '\n', '\r'] s

/-- Python `len(set(s))`: the number of distinct characters of `s`. -/
def distinctCount : List Char → Nat
  | [] => 0
  | c :: rest => if rest.contains c then distinctCount rest else distinctCount rest + 1

/-! ## Line parser and pressure bands (`src/main.py`) -/

/-- `VALVE_TAG = "Toggle PIN"` (src/main.py line 53). -/
def VALVE_TAG : String := "Toggle PIN"

/-- `RocketDisplayWindow.parseData` (src/main.py lines 266-285).
A line containing `VALVE_TAG` is stripped of the tag's characters and split
on `VALVE_SEP = " "` into a pin and a value, giving one `("SV<pin>", value)`
pair; `none` models the `ValueError` of the tuple unpacking when the split
does not yield exactly two parts.  Otherwise a line containing
`PRESSURE_SEP = ", "` is split into readings keyed `"PT1"`, `"PT2"`, ...
by 1-based position.  Any other line yields no pairs. -/
def parseData (data : String) : Option (List (String × String)) :=
  if isSubstr VALVE_TAG.toList data.toList then
    match splitOnChar ' ' (pyStrip VALVE_TAG.toList data.toList) with
    | [pin, value] => some [("SV" ++ String.mk pin, String.mk value)]
    | _ => none
  else if isSubstr ", ".toList data.toList then
    some ((splitCommaSpace data.toList).enum.map
      (fun p => ("PT" ++ toString (p.1 + 1), String.mk p.2)))
  else some []

/-- The three display bands of `RocketDisplayWindow.updateDisplay`. -/
inductive Band where
  | SAFE
  | MID
  | UNSAFE
deriving DecidableEq

/-- `reading in SAFE_PRESS` where `SAFE_PRESS = range(-1000, 400)`
(src/main.py line 57): `-1000 <= x < 400`. -/
def SAFE_PRESS (x : Int) : Bool := -1000 ≤ x && x < 400

/-- `reading in MID_PRESS` where `MID_PRESS = range(401, 501)`
(src/main.py line 58): `401 <= x < 501`. -/
def MID_PRESS (x : Int) : Bool := 401 ≤ x && x < 501

/-- The `PT` branch of `RocketDisplayWindow.updateDisplay`
(src/main.py lines 309-320): green if the reading is in `SAFE_PRESS`,
yellow if in `MID_PRESS`, red otherwise. -/
def classifyPress (reading : Int) : Band :=
  if SAFE_PRESS reading then Band.SAFE
  else if MID_PRESS reading then Band.MID
  else Band.UNSAFE

/-- The `SV` branch of `RocketDisplayWindow.updateDisplay`
(src/main.py lines 296-308): `status = int(value.strip())`, displayed OPEN
when nonzero and CLOSE when zero; `none` models the uncaught `ValueError`
of `int` on a malformed value. -/
def svStatus (value : String) : Option Bool :=
  (pyInt? (stripWs value.toList)).map (fun n => n ≠ 0)

/-! ## Outbound command path (`src/main.py`) -/

/-- `MSG_PAD = lambda x: x + "0" * (8 - len(x))` (src/main.py line 49);
Python's `"0" * n` is empty for `n <= 0`, matching `Nat` subtraction. -/
def MSG_PAD (x : String) : String :=
  x ++ String.mk (List.replicate (8 - x.length) '0')

/-- The duplicate-pin guard of `RocketDisplayWindow.sendMessage`
(src/main.py line 346): `len(set(command)) < len(command)`. -/
def hasDuplicate (command : String) : Bool :=
  distinctCount command.toList < command.toList.length

/-- `RocketDisplayWindow.sendMessage` (src/main.py lines 338-359), returning
the exact byte string handed to the serial link (`SerialWorker.sendToggle`
appends the `"\n"` terminator to `MSG_PAD(command)`), or `none` when nothing
is transmitted: serial not configured/on, or the duplicate-pin guard fires.
`command = none` models the Python default `None` (the text-entry path,
which falls back to `serialEntry.text()`), as does an empty command. -/
def sendMessage (serialSet serialOn : Bool) (entry : String)
    (command : Option String) : Option String :=
  if serialSet && serialOn then
    let cmd := match command with
      | none => entry
      | some c => if c = "" then entry else c
    if hasDuplicate cmd then none
    else some (MSG_PAD cmd ++ "\n")
  else none

/-! ## Stage navigation of the main window (`src/main.py`) -/

/-- `LAUNCH_STATES` (src/main.py line 25). -/
def LAUNCH_STATES : List String :=
  ["IDLE", "SYSTEM CHECKS", "HIGH PRESSURE", "TANK HIGH PRESSURE", "FIRE"]

/-- The stage-relevant state of `RocketDisplayWindow`: the stage index
`currentState`, the `aborted` flag and the text of the `CURR_STATE` display
label.  The index is an `Int`, as in Python; the source's bound checks keep
it inside `LAUNCH_STATES` wherever the label text indexes the list. -/
structure MainState where
  currentState : Int
  aborted : Bool
  stageLabel : String
deriving DecidableEq

/-- The `CURR_STATE` label text `f"<h1>STAGE: {LAUNCH_STATES[i]}</h1>"`. -/
def stageText (i : Int) : String :=
  "<h1>STAGE: " ++ LAUNCH_STATES.getD i.toNat "" ++ "</h1>"

/-- Initial state of `RocketDisplayWindow.__init__`
(src/main.py lines 78-80 and 516-526): index 0, not aborted, label IDLE. -/
def initMain : MainState :=
  { currentState := 0, aborted := false, stageLabel := stageText 0 }

/-- `RocketDisplayWindow.updateStage` (src/main.py lines 730-749).
`conf` is the operator's answer to the confirmation box; the source asks it
only when `not self.aborted`.  When the index bound passes, the method
increments `currentState` and rewrites the stage display label
(per-stage label styling is display-only and omitted). -/
def updateStage (conf : Bool) (s : MainState) : MainState :=
  if ¬ s.aborted ∧ ¬ conf then s
  else if s.currentState + 1 ≥ 5 then s
  else
    { s with
      currentState := s.currentState + 1
      stageLabel := stageText (s.currentState + 1) }

/-- `RocketDisplayWindow.previousStage` (src/main.py lines 751-772),
the mirror image of `updateStage` with the `currentState - 1 < 0` bound. -/
def previousStage (conf : Bool) (s : MainState) : MainState :=
  if ¬ s.aborted ∧ ¬ conf then s
  else if s.currentState - 1 < 0 then s
  else
    { s with
      currentState := s.currentState - 1
      stageLabel := stageText (s.currentState - 1) }

/-- `RocketDisplayWindow.abortMission` (src/main.py lines 774-793): on a
confirmed abort, sets the display to MISSION ABORTED and the `aborted` flag,
returning `True`; otherwise changes nothing and returns `False`
(the countdown-timer stop is display-only and omitted). -/
def abortMission (conf : Bool) (s : MainState) : Bool × MainState :=
  if conf then
    (true, { s with aborted := true, stageLabel := "<h1> MISSION ABORTED </h1>" })
  else (false, s)

/-! ## Task-gated launch state machine (`src/test.py`) -/

/-- `RocketStates.IDLE` (src/test.py line 10). -/
def IDLE : String := "Leak Checks:"

/-- `RocketStates.HIGH_PRESS` (src/test.py line 11). -/
def HIGH_PRESS : String := "Upper Pressurization:"

/-- `RocketStates.TANK_HP` (src/test.py line 12). -/
def TANK_HP : String := "Fuel/Ox Pressurization:"

/-- `RocketStates.FIRE` (src/test.py line 13). -/
def FIRE : String := "Initiate Launch:"

/-- `RocketStates.states` (src/test.py line 15). -/
def rocketStates : List String := [IDLE, HIGH_PRESS, TANK_HP, FIRE]

/-- `RocketStates.COPV_OPEN` (src/test.py line 22). -/
def COPV_OPEN : String := "COPV_O"

/-- `RocketStates.KBOTTLE` (src/test.py line 29). -/
def KBOTTLE : String := "KBOTTLE"

/-- `RocketStates.COPV_EQ` (src/test.py line 30). -/
def COPV_EQ : String := "COPV_E"

/-- `RocketStates.COPV_CLOSE` (src/test.py line 35). -/
def COPV_CLOSE : String := "COPV_C"

/-- `RocketStates.TANKS_OPEN` (src/test.py line 36). -/
def TANKS_OPEN : String := "TANKS"

/-- `RocketStates.FIRE_INIT` (src/test.py line 41). -/
def FIRE_INIT : String := "FIRE_I"

/-- Python dict lookup `d[k]` on an insertion-ordered association list:
the value at the first matching key, `none` for a `KeyError`. -/
def dictGet {α : Type} (k : String) : List (String × α) → Option α
  | [] => none
  | (k', v) :: rest => if k' = k then some v else dictGet k rest

/-- Python dict assignment `d[k] = v`: update the first matching key in
place, or append a new entry at the end when `k` is absent. -/
def dictSet {α : Type} (k : String) (v : α) : List (String × α) → List (String × α)
  | [] => [(k, v)]
  | (k', v') :: rest => if k' = k then (k, v) :: rest else (k', v') :: dictSet k v rest

/-- The state shared by `FireProcedure` and `StateMachine` in `src/test.py`:
`FireProcedure.currentStage` (which `StateMachine.current` aliases, and which
becomes `None` when the machine advances past the last stage) and the
per-stage task dicts `FireProcedure.tasks`. -/
structure ProcState where
  currentStage : Option String
  tasks : List (String × List (String × Bool))
deriving DecidableEq

/-- The state built by `FireProcedure.__init__`/`addStage`
(src/test.py lines 55-94): every task flag starts `False`, dicts keep
insertion order, and the current stage is IDLE. -/
def initProc : ProcState :=
  { currentStage := some IDLE
    tasks :=
      [ (IDLE, [(COPV_OPEN, false)])
      , (HIGH_PRESS, [(KBOTTLE, false), (COPV_EQ, false)])
      , (TANK_HP, [(COPV_CLOSE, false), (TANKS_OPEN, false)])
      , (FIRE, [(FIRE_INIT, false)]) ] }

/-- `FireProcedure.changeStatus` (src/test.py lines 96-108).  A stage-name
label only restyles its header.  Any other label is assigned into
`self.tasks[self.currentStage]` — a dict assignment, which *inserts* the
label when it is not already a key.  A `KeyError` (current stage `None` or
missing from `tasks`) is caught and leaves the state unchanged; label
styling is display-only and omitted. -/
def changeStatus (label : String) (status : Bool) (s : ProcState) : ProcState :=
  if rocketStates.contains label then s
  else
    match s.currentStage with
    | none => s
    | some st =>
      match dictGet st s.tasks with
      | none => s
      | some d => { s with tasks := dictSet st (dictSet label status d) s.tasks }

/-- The successor table installed by `MainWindow.__init__`
(src/test.py lines 181-184): `addState(IDLE, HIGH_PRESS, _)`, ...,
`addState(FIRE, None, _)`.  The outer `none` is a `KeyError` on
`self.states[name]` for a name never added. -/
def smNextTable (st : String) : Option (Option String) :=
  if st = IDLE then some (some HIGH_PRESS)
  else if st = HIGH_PRESS then some (some TANK_HP)
  else if st = TANK_HP then some (some FIRE)
  else if st = FIRE then some none
  else none

/-- `StateMachine.update` (src/test.py lines 158-165).  The outer `none`
models an uncaught `KeyError` (reading `tasks[None]`, or a stage missing
from the tables); otherwise the result is `(r, s')` where `r = none` models
the `return False` taken as soon as some task of the current stage is
incomplete (state unchanged) and `r = some last` models the successful
return of the just-left stage, with the current stage moved to its
successor. -/
def smUpdate (s : ProcState) : Option (Option String × ProcState) :=
  match s.currentStage with
  | none => none
  | some st =>
    match dictGet st s.tasks with
    | none => none
    | some d =>
      if d.all (fun p => p.2) then
        match smNextTable st with
        | none => none
        | some nxt => some (some st, { s with currentStage := nxt })
      else some (none, s)

/-- One operator action on the `src/test.py` model: clicking
"Advance Stage" (`MainWindow.updateStage`, which calls
`StateMachine.update`) or marking a task (`FireProcedure.changeStatus`). -/
inductive ProcOp where
  | adv
  | mark (label : String) (status : Bool)

/-- Apply one operation; a crashing `update` (uncaught `KeyError`) leaves
the state unchanged, since it raises before mutating anything. -/
def applyOp (o : ProcOp) (s : ProcState) : ProcState :=
  match o with
  | ProcOp.adv =>
    match smUpdate s with
    | some (_, s2) => s2
    | none => s
  | ProcOp.mark l b => changeStatus l b s

/-- Apply a sequence of operations from left to right. -/
def runOps : List ProcOp → ProcState → ProcState
  | [], s => s
  | o :: rest, s => runOps rest (applyOp o s)

/-- The states of the `src/test.py` model reachable from the initial state
by advance requests and task marking. -/
inductive Reach : ProcState → Prop
  | init : Reach initProc
  | step (s : ProcState) (r : Option String) (s2 : ProcState) :
      Reach s → smUpdate s = some (r, s2) → Reach s2
  | mark (s : ProcState) (label : String) (status : Bool) :
      Reach s → Reach (changeStatus label status s)

/-- The operation sequence that completes every task and advances through
all four stages. -/
def opsToNone : List ProcOp :=
  [ ProcOp.mark COPV_OPEN true, ProcOp.adv
  , ProcOp.mark KBOTTLE true, ProcOp.mark COPV_EQ true, ProcOp.adv
  , ProcOp.mark COPV_CLOSE true, ProcOp.mark TANKS_OPEN true, ProcOp.adv
  , ProcOp.mark FIRE_INIT true, ProcOp.adv ]

/-! ## Serial worker (`src/utils/gui_serial.py`)

`SerialWorker.run` and `SerialWorker.sendToggle` are embedded as
trace-producing functions over explicit schedules of their environment:
for each loop iteration, the value of the externally-mutated `program`
flag, the outcome of `mutex.tryLock()`, and the outcome of
`serialConnection.readEolLine()` (a string, or a raised
`SerialException`/`UnicodeDecodeError`). -/

/-- Observable actions of the serial worker, in program order. -/
inductive SerAct where
  | acqLock
  | readAct
  | emitErr
  | emitMsg (s : String)
  | writeAct (s : String)
  | unlock
  | cleanup
deriving DecidableEq

/-- The environment of one iteration of `SerialWorker.run`'s loop. -/
structure IterIn where
  program : Bool
  lock : Bool
  read : Except Unit String

/-- Boolean membership of an action in a trace. -/
def hasAct (a : SerAct) : List SerAct → Bool
  | [] => false
  | x :: r => if x = a then true else hasAct a r

/-- Number of `emitErr` actions in a trace. -/
def countErr : List SerAct → Nat
  | [] => 0
  | SerAct.emitErr :: r => countErr r + 1
  | _ :: r => countErr r

/-- After the first `emitErr` of a trace, no `readAct` and no further
`emitErr` occurs. -/
def noReadAfterErr : List SerAct → Bool
  | [] => true
  | SerAct.emitErr :: r => !(hasAct SerAct.readAct r) && !(hasAct SerAct.emitErr r)
  | _ :: r => noReadAfterErr r

/-- `SerialWorker.run` (src/utils/gui_serial.py lines 103-126), with the
local `error` flag as first argument (initially `false`).  Each iteration:
if `self.program` is false the loop exits and emits `cleanup`; otherwise,
when the error flag is clear and `tryLock` succeeds, one read is attempted —
an exception emits the error signal (before the unlock) and sets the error
flag, an empty read just continues, and a non-empty read emits `msg` after
the unlock.  With the error flag set the loop keeps spinning without
touching the lock or the link.  The trace ends without `cleanup` when the
input schedule is exhausted mid-run. -/
def runFrom : Bool → List IterIn → List SerAct
  | _, [] => []
  | err, i :: rest =>
    if i.program = false then [SerAct.cleanup]
    else if err then runFrom true rest
    else if i.lock = false then runFrom false rest
    else
      match i.read with
      | Except.error _ =>
        SerAct.acqLock :: SerAct.readAct :: SerAct.emitErr :: SerAct.unlock ::
          runFrom true rest
      | Except.ok s =>
        if s = "" then SerAct.acqLock :: SerAct.readAct :: SerAct.unlock :: runFrom false rest
        else
          SerAct.acqLock :: SerAct.readAct :: SerAct.unlock :: SerAct.emitMsg s ::
            runFrom false rest

/-- The number of read attempts in a run of `SerialWorker.run` that raise:
this observation function follows exactly the gating of `runFrom` (a read is
attempted only while `program` holds, the error flag is clear and `tryLock`
succeeds), counting the iterations whose read outcome is an exception.
Relating it to the emitted trace states "exactly one error event per
failure". -/
def failuresSeen : Bool → List IterIn → Nat
  | _, [] => 0
  | err, i :: rest =>
    if i.program = false then 0
    else if err then failuresSeen true rest
    else if i.lock = false then failuresSeen false rest
    else
      match i.read with
      | Except.error _ => 1 + failuresSeen true rest
      | Except.ok _ => failuresSeen false rest

/-- The spin loop of `SerialWorker.sendToggle`: keep attempting `tryLock`
until it succeeds, then write the message, unlock and return.  `none`
models a schedule that never grants the lock (the call has not returned). -/
def sendToggleGo (message : String) : List Bool → Option (List SerAct)
  | [] => none
  | b :: rest =>
    if b then some [SerAct.acqLock, SerAct.writeAct message, SerAct.unlock]
    else sendToggleGo message rest

/-- `SerialWorker.sendToggle` (src/utils/gui_serial.py lines 128-143):
the message is `pins + "\n"`, falling back to the stored `self.pins` when
the argument is empty/`None` (Python truthiness), then the spin loop
acquires the lock, performs the single `SerialComm.sendMessage` write,
unlocks and returns. -/
def sendToggleTrace (pins selfPins : String) (sched : List Bool) : Option (List SerAct) :=
  sendToggleGo (if pins = "" then selfPins ++ "\n" else pins ++ "\n") sched

/-! ## Helper lemmas -/

/-- Assigning an absent key appends it at the end of the dict. -/
theorem dictSet_absent {α : Type} (k : String) (v : α) (d : List (String × α))
    (h : dictGet k d = none) : dictSet k v d = d ++ [(k, v)] := by
  induction d with
  | nil => rfl
  | cons p rest ih =>
    obtain ⟨k', v'⟩ := p
    unfold dictGet at h
    by_cases hk : k' = k
    · rw [if_pos hk] at h; exact absurd h (by simp)
    · rw [if_neg hk] at h
      unfold dictSet
      rw [if_neg hk, ih h]
      simp

/-- `changeStatus` never moves the current stage. -/
theorem changeStatus_currentStage (label : String) (status : Bool) (s : ProcState) :
    (changeStatus label status s).currentStage = s.currentStage := by
  unfold changeStatus
  split
  · rfl
  · split
    · rfl
    · split
      · rfl
      · rfl

/-- Every successor produced by the machine's table is one of the three
later stages or `None`. -/
theorem smNextTable_cases (st : String) (nxt : Option String)
    (h : smNextTable st = some nxt) :
    nxt = some HIGH_PRESS ∨ nxt = some TANK_HP ∨ nxt = some FIRE ∨ nxt = none := by
  unfold smNextTable at h
  split_ifs at h
  · exact Or.inl (Option.some.inj h).symm
  · exact Or.inr (Or.inl (Option.some.inj h).symm)
  · exact Or.inr (Or.inr (Or.inl (Option.some.inj h).symm))
  · exact Or.inr (Or.inr (Or.inr (Option.some.inj h).symm))

/-- A non-crashing `StateMachine.update` either leaves the state unchanged
or moves the current stage to the table successor of the current stage. -/
theorem smUpdate_shape (s : ProcState) (r : Option String) (s2 : ProcState)
    (h : smUpdate s = some (r, s2)) :
    s2 = s ∨ ∃ st nxt, s.currentStage = some st ∧ smNextTable st = some nxt ∧
      s2 = { s with currentStage := nxt } := by
  unfold smUpdate at h
  split at h
  · exact absurd h (by simp)
  · rename_i st hc
    split at h
    · exact absurd h (by simp)
    · rename_i d hd
      split at h
      · split at h
        · exact absurd h (by simp)
        · rename_i nxt hn
          right
          exact ⟨st, nxt, hc, hn, (congrArg Prod.snd (Option.some.inj h)).symm⟩
      · left
        exact (congrArg Prod.snd (Option.some.inj h)).symm

/-- Applying one operator action preserves reachability. -/
theorem reach_applyOp (o : ProcOp) (s : ProcState) (h : Reach s) :
    Reach (applyOp o s) := by
  cases o with
  | adv =>
    cases hu : smUpdate s with
    | none => simpa [applyOp, hu] using h
    | some p =>
      obtain ⟨r, s2⟩ := p
      simpa [applyOp, hu] using Reach.step s r s2 h hu
  | mark l b => exact Reach.mark s l b h

/-- Applying a sequence of operator actions preserves reachability. -/
theorem reach_runOps (l : List ProcOp) (s : ProcState) (h : Reach s) :
    Reach (runOps l s) := by
  induction l generalizing s with
  | nil => exact h
  | cons o rest ih => exact ih (applyOp o s) (reach_applyOp o s h)

/-- Once the internal error flag is set, the rest of the run is silent:
it either runs out of schedule or emits the final `cleanup`. -/
theorem runFrom_true (ins : List IterIn) :
    runFrom true ins = [] ∨ runFrom true ins = [SerAct.cleanup] := by
  induction ins with
  | nil => exact Or.inl rfl
  | cons i rest ih =>
    by_cases hp : i.program = false
    · simp [runFrom, hp]
    · simpa [runFrom, hp] using ih

/-- In degraded mode the worker performs no read, emits no further error,
and counts zero errors. -/
theorem runFrom_true_silent (ins : List IterIn) :
    hasAct SerAct.readAct (runFrom true ins) = false ∧
    hasAct SerAct.emitErr (runFrom true ins) = false ∧
    countErr (runFrom true ins) = 0 := by
  rcases runFrom_true ins with h | h <;> rw [h]
  · exact ⟨rfl, rfl, rfl⟩
  · exact ⟨by decide, by decide, by decide⟩

/-- With the error flag set no further read is attempted, so no further
failure can be seen. -/
theorem failuresSeen_true (ins : List IterIn) : failuresSeen true ins = 0 := by
  induction ins with
  | nil => rfl
  | cons i rest ih =>
    by_cases hp : i.program = false
    · simp [failuresSeen, hp]
    · simpa [failuresSeen, hp] using ih

/-- The spin loop of `sendToggle`, when it returns, has produced exactly
the trace lock-write-unlock. -/
theorem sendToggleGo_spec (message : String) (sched : List Bool) (tr : List SerAct)
    (h : sendToggleGo message sched = some tr) :
    tr = [SerAct.acqLock, SerAct.writeAct message, SerAct.unlock] := by
  induction sched with
  | nil => exact absurd h (by simp [sendToggleGo])
  | cons b rest ih =>
    cases b
    · exact ih (by simpa [sendToggleGo] using h)
    · simp [sendToggleGo] at h
      exact h.symm

/-- The spin loop of `sendToggle` returns as soon as some attempt in the
schedule is granted the lock. -/
theorem sendToggleGo_some (message : String) (sched : List Bool)
    (h : sched.contains true = true) : sendToggleGo message sched ≠ none := by
  induction sched with
  | nil => simp at h
  | cons b rest ih =>
    cases b
    · have h' : rest.contains true = true := by simpa using h
      simpa [sendToggleGo] using ih h'
    · simp [sendToggleGo]

/-- A command with a repeated character is in particular nonempty. -/
theorem hasDuplicate_ne_empty (cmd : String) (h : hasDuplicate cmd = true) :
    cmd ≠ "" := by
  intro hc
  subst hc
  exact absurd h (by decide)

/-! ## Claims -/

/-- C1: the claim states that after `abort()` any `advance()`/`regress()`
request fails and leaves the displayed stage ABORTED, with the index and
flag unchanged.  The code violates this: `updateStage`/`previousStage`
skip the operator confirmation when `aborted` is set and then still move
`currentState` and overwrite the MISSION ABORTED display.  This theorem
evaluates the embedded code at the failing input: abort at stage index 0,
then advance (the confirmation answer is irrelevant — here even `false`),
then regress. -/
theorem abortThenAdvance_mutates :
    ((abortMission true initMain).2).aborted = true ∧
    ((abortMission true initMain).2).stageLabel = "<h1> MISSION ABORTED </h1>" ∧
    (updateStage false ((abortMission true initMain).2)).currentState = 1 ∧
    (updateStage false ((abortMission true initMain).2)).aborted = true ∧
    (updateStage false ((abortMission true initMain).2)).stageLabel =
      "<h1>STAGE: SYSTEM CHECKS</h1>" ∧
    (previousStage false (updateStage false ((abortMission true initMain).2))).currentState
      = 0 := by
  decide

/-- C2: from any state whose current stage `st` has task dict `d` and a
successor entry in the machine table, `StateMachine.update` succeeds —
returning the just-left stage and moving the current stage to the table
successor — exactly when every task in `d` is complete, and otherwise
returns `False` leaving the state unchanged. -/
theorem advance_iff_tasks_complete (s : ProcState) (st : String)
    (d : List (String × Bool)) (nxt : Option String)
    (h1 : s.currentStage = some st) (h2 : dictGet st s.tasks = some d)
    (h3 : smNextTable st = some nxt) :
    (d.all (fun p => p.2) = true →
      smUpdate s = some (some st, { s with currentStage := nxt })) ∧
    (d.all (fun p => p.2) = false → smUpdate s = some (none, s)) := by
  constructor <;> intro hall <;> simp [smUpdate, h1, h2, h3, hall]

/-- C2 witness: at the initial state the single IDLE task is incomplete and
the advance fails unchanged; after marking it, the advance succeeds and
moves to HIGH PRESSURE. -/
theorem advance_iff_tasks_complete_witness :
    smUpdate initProc = some (none, initProc) ∧
    smUpdate (changeStatus COPV_OPEN true initProc) =
      some (some IDLE,
        { changeStatus COPV_OPEN true initProc with currentStage := some HIGH_PRESS }) := by
  constructor
  · exact (advance_iff_tasks_complete initProc IDLE [(COPV_OPEN, false)]
      (some HIGH_PRESS) (by decide) (by decide) (by decide)).2 (by decide)
  · exact (advance_iff_tasks_complete (changeStatus COPV_OPEN true initProc) IDLE
      [(COPV_OPEN, true)] (some HIGH_PRESS) (by decide) (by decide) (by decide)).1
      (by decide)

/-- C3 counterexample: the claim states that marking a task id not in the
current stage's task set leaves all state unchanged.  Marking KBOTTLE (a
HIGH-PRESSURE task) while the current stage is IDLE raises no error but
inserts KBOTTLE into IDLE's task dict: the state changes and IDLE's task-set
membership is no longer what it was at construction. -/
theorem markUnknownTask_mutates_membership :
    changeStatus KBOTTLE true initProc ≠ initProc ∧
    dictGet IDLE (changeStatus KBOTTLE true initProc).tasks =
      some [(COPV_OPEN, false), (KBOTTLE, true)] := by
  decide

/-- C3 amended: marking a task id that is not a stage name and not in the
current stage's task dict raises no error but is not a no-op — the id is
appended to the current stage's task dict with the given status (all other
components of the state, in particular the current stage and the other
stages' dicts, are untouched by the single `dictSet` at the current
stage). -/
theorem markUnknownTask_inserts (s : ProcState) (st label : String) (status : Bool)
    (d : List (String × Bool))
    (h1 : s.currentStage = some st) (h2 : dictGet st s.tasks = some d)
    (h3 : rocketStates.contains label = false) (h4 : dictGet label d = none) :
    changeStatus label status s =
      { s with tasks := dictSet st (d ++ [(label, status)]) s.tasks } := by
  have hset : dictSet label status d = d ++ [(label, status)] :=
    dictSet_absent label status d h4
  have h3' : ¬ label ∈ rocketStates := by simpa using h3
  simp [changeStatus, h1, h2, h3', hset]

/-- C3 amended witness: marking KBOTTLE at the initial state appends it to
IDLE's task dict. -/
theorem markUnknownTask_inserts_witness :
    changeStatus KBOTTLE true initProc =
      { initProc with
        tasks := dictSet IDLE ([(COPV_OPEN, false)] ++ [(KBOTTLE, true)]) initProc.tasks } :=
  markUnknownTask_inserts initProc IDLE KBOTTLE true [(COPV_OPEN, false)]
    (by decide) (by decide) (by decide) (by decide)

/-- C4 counterexample: the claim states that the current stage is always an
element of the fixed stage sequence (or a distinguished ABORTED state, which
this machine does not have) and never `None`.  Completing every task and
advancing four times is a reachable operation sequence after which the
current stage is `None`. -/
theorem currentStage_none_reachable :
    Reach (runOps opsToNone initProc) ∧ (runOps opsToNone initProc).currentStage = none :=
  ⟨reach_runOps opsToNone initProc Reach.init, by decide⟩

/-- C4 amended: in every reachable state the current stage is an element of
the fixed four-stage sequence or `None` (reachable by advancing past the
final stage, whose table successor is `None`); it is never any other
value. -/
theorem reachable_stage_in_sequence_or_none (t : ProcState) (h : Reach t) :
    t.currentStage = none ∨ t.currentStage = some IDLE ∨
    t.currentStage = some HIGH_PRESS ∨ t.currentStage = some TANK_HP ∨
    t.currentStage = some FIRE := by
  induction h with
  | init => exact Or.inr (Or.inl rfl)
  | step s r s2 hr hu ih =>
    rcases smUpdate_shape s r s2 hu with heq | ⟨st, nxt, hc, hn, heq⟩
    · rw [heq]; exact ih
    · subst heq
      rcases smNextTable_cases st nxt hn with h1 | h1 | h1 | h1 <;> subst h1
      · exact Or.inr (Or.inr (Or.inl rfl))
      · exact Or.inr (Or.inr (Or.inr (Or.inl rfl)))
      · exact Or.inr (Or.inr (Or.inr (Or.inr rfl)))
      · exact Or.inl rfl
  | mark s label status hr ih =>
    rw [changeStatus_currentStage]
    exact ih

/-- C4 amended witness: the invariant at the initial state. -/
theorem reachable_stage_witness :
    initProc.currentStage = none ∨ initProc.currentStage = some IDLE ∨
    initProc.currentStage = some HIGH_PRESS ∨ initProc.currentStage = some TANK_HP ∨
    initProc.currentStage = some FIRE :=
  reachable_stage_in_sequence_or_none initProc Reach.init

/-- C5 counterexample: the claim states that the value 450 classifies
UNSAFE.  It does not: 450 lies in `MID_PRESS = range(401, 501)`, so
`updateDisplay` styles it with the MID (yellow) band. -/
theorem press450_not_unsafe :
    classifyPress 450 = Band.MID ∧ classifyPress 450 ≠ Band.UNSAFE := by
  decide

/-- C5 amended: the pressure line `"10, 200, 450"` parses to the three
readings keyed PT1..PT3 by 1-based position, and the configured ranges
classify 10 as SAFE and 450 as MID. -/
theorem pressure_line_parse_and_bands :
    parseData "10, 200, 450" = some [("PT1", "10"), ("PT2", "200"), ("PT3", "450")] ∧
    classifyPress 10 = Band.SAFE ∧ classifyPress 450 = Band.MID := by
  decide

/-- C6: the valve line `"Toggle PIN3 1"` parses to exactly one event for
pin 3 whose status value 1 displays as open, and the same line with status
value 0 displays as closed. -/
theorem valve_line_parse :
    parseData "Toggle PIN3 1" = some [("SV" ++ "3", "1")] ∧ svStatus "1" = some true ∧
    parseData "Toggle PIN3 0" = some [("SV" ++ "3", "0")] ∧ svStatus "0" = some false := by
  decide

/-- C7: sending the toggle command "13" (with serial configured and on)
transmits exactly `"13"`, six `'0'` padding characters, and the newline
terminator, regardless of the text-entry content. -/
theorem sendMessage_pads_13 (entry : String) :
    sendMessage true true entry (some "13") = some ("13" ++ "000000" ++ "\n") := rfl

/-- C8: for every lock-grant schedule, if `sendToggle(pins)` (nonempty
`pins`) returns then its trace is exactly acquire-lock, one write of
`pins + "\n"`, release-lock; and it does return as soon as any attempt in
the schedule is granted the lock (it never skips). -/
theorem sendToggle_single_write (pins selfPins : String) (sched : List Bool)
    (h : pins ≠ "") :
    (∀ tr, sendToggleTrace pins selfPins sched = some tr →
        tr = [SerAct.acqLock, SerAct.writeAct (pins ++ "\n"), SerAct.unlock]) ∧
    (sched.contains true = true → sendToggleTrace pins selfPins sched ≠ none) := by
  unfold sendToggleTrace
  rw [if_neg h]
  exact ⟨fun tr htr => sendToggleGo_spec (pins ++ "\n") sched tr htr,
    fun hc => sendToggleGo_some (pins ++ "\n") sched hc⟩

/-- C8 witness: a schedule whose second attempt is granted. -/
theorem sendToggle_single_write_witness :
    ("13000000" : String) ≠ "" ∧
    sendToggleTrace "13000000" "" [false, true] ≠ none :=
  ⟨by decide,
    (sendToggle_single_write "13000000" "" [false, true] (by decide)).2 (by decide)⟩

/-- C9: over every environment schedule, the worker run started with a clear
error flag emits the error signal exactly once per read failure it
encounters — the number of error events in the trace equals the number of
failing reads attempted, so a failing read always emits the event and a run
without failure never does; this count is at most 1 (reads are gated off by
the error flag after the first failure), and after the first error event the
trace contains no further read and no further error event, while the
externally-owned `program` flag keeps the loop iterating until it is
cleared, which emits `cleanup`. -/
theorem serial_error_emitted_once (ins : List IterIn) :
    countErr (runFrom false ins) = failuresSeen false ins ∧
    countErr (runFrom false ins) ≤ 1 ∧
    noReadAfterErr (runFrom false ins) = true := by
  induction ins with
  | nil => exact ⟨rfl, by decide, rfl⟩
  | cons i rest ih =>
    by_cases hp : i.program = false
    · refine ⟨?_, ?_, ?_⟩ <;> simp [runFrom, failuresSeen, hp, countErr, noReadAfterErr]
    · by_cases hl : i.lock = false
      · simpa [runFrom, failuresSeen, hp, hl] using ih
      · cases hr : i.read with
        | error e =>
          have hs := runFrom_true_silent rest
          have hf := failuresSeen_true rest
          refine ⟨?_, ?_, ?_⟩
          · simp [runFrom, failuresSeen, hp, hl, hr, countErr, hs.2.2, hf]
          · simp [runFrom, hp, hl, hr, countErr, hs.2.2]
          · simp [runFrom, hp, hl, hr, noReadAfterErr, hasAct, hs.1, hs.2.1]
        | ok str =>
          by_cases hstr : str = ""
          · simpa [runFrom, failuresSeen, hp, hl, hr, hstr, countErr, noReadAfterErr]
              using ih
          · simpa [runFrom, failuresSeen, hp, hl, hr, hstr, countErr, noReadAfterErr]
              using ih

/-- C10: a command containing a repeated character is rejected by the
duplicate-pin guard before padding and transmission — `sendMessage`
transmits nothing, both on the per-valve button path (explicit command)
and on the text-entry path (command defaulted from the entry field). -/
theorem duplicate_command_no_write (serialSet serialOn : Bool) (entry cmd : String) :
    (hasDuplicate cmd = true → sendMessage serialSet serialOn entry (some cmd) = none) ∧
    (hasDuplicate entry = true → sendMessage serialSet serialOn entry none = none) := by
  constructor <;> intro h
  · have hne := hasDuplicate_ne_empty cmd h
    by_cases hso : (serialSet && serialOn) = true
    · simp [sendMessage, hso, hne, h]
    · simp [sendMessage, hso]
  · by_cases hso : (serialSet && serialOn) = true
    · simp [sendMessage, hso, h]
    · simp [sendMessage, hso]

/-- C10 witness: the duplicate command "11" on the button path and "22" on
the text-entry path, with serial configured and on. -/
theorem duplicate_command_no_write_witness :
    sendMessage true true "" (some "11") = none ∧
    sendMessage true true "22" none = none :=
  ⟨(duplicate_command_no_write true true "" "11").1 (by decide),
   (duplicate_command_no_write true true "22" "11").2 (by decide)⟩

